import Mathlib

/-!
Verification development for the Weylus connection- and session-management
engine (src/websocket.rs) and the mouse input device (src/input/mouse_device.rs).

The Rust code is shallowly embedded: effectful loops become pure functions
over explicit lists of externally supplied outcomes (received messages,
platform-call results), and the externally observable behaviour (messages
forwarded to the stream handler, control messages sent, platform calls made,
registry mutations, the shutdown flag) is returned as data.
-/

namespace Weylus

/-! ## Messages (websocket crate `OwnedMessage` and the GUI channel types) -/

/-- The message type delivered by `ws_receiver.incoming_messages()`.
Payload details of non-text frames are irrelevant to the session logic. -/
inductive OwnedMessage where
  | text (s : String)
  | binary (b : List Nat)
  | ping (b : List Nat)
  | pong (b : List Nat)
  | close
  deriving DecidableEq, Repr

/-- Embedding of `OwnedMessage::is_close`: true exactly on close frames. -/
def OwnedMessage.is_close : OwnedMessage → Bool
  | .close => true
  | _ => false

/-- One element of the `incoming_messages()` iterator: `Ok(msg)` or a read
error (`Err`), whose payload the code only logs. -/
inductive MsgResult where
  | ok (m : OwnedMessage)
  | err (e : String)
  deriving DecidableEq, Repr

/-! ## The per-connection message loop (websocket.rs lines 277-303) -/

/-- Why the `for msg in ws_receiver.incoming_messages()` loop ended. -/
inductive Termination where
  | authFail
  | closeFrame
  | readError
  | endOfStream
  deriving DecidableEq, Repr

/-- Observable outcome of the message loop: the messages handed to
`stream_handler.process` (in order), and why the loop returned. -/
structure LoopResult where
  forwarded : List OwnedMessage
  termination : Termination
  deriving DecidableEq, Repr

/-- Embedding of the `for msg in ws_receiver.incoming_messages()` loop with
the mutable `authed` flag made an explicit argument.  Mirrors the Rust
control flow exactly: on `Ok(msg)`, if not authed, a text frame is compared
to the password (match sets `authed`, mismatch returns); if authed the
message is forwarded; then `msg.is_close()` is checked; on `Err` the loop
returns. -/
def messageLoopGo (password : String) (authed : Bool) : List MsgResult → LoopResult
  | [] => ⟨[], .endOfStream⟩
  | .err _ :: _ => ⟨[], .readError⟩
  | .ok m :: rest =>
    if authed then
      if m.is_close then ⟨[m], .closeFrame⟩
      else
        let r := messageLoopGo password true rest
        ⟨m :: r.forwarded, r.termination⟩
    else
      match m with
      | .text pw =>
        if pw = password then
          if (OwnedMessage.text pw).is_close then ⟨[], .closeFrame⟩
          else messageLoopGo password true rest
        else ⟨[], .authFail⟩
      | _ =>
        if m.is_close then ⟨[], .closeFrame⟩
        else messageLoopGo password false rest

/-- Embedding of lines 277-278: `let mut authed = password.is_none();
let password = password.unwrap_or("".into());` followed by the loop. -/
def messageLoop (password : Option String) (msgs : List MsgResult) : LoopResult :=
  messageLoopGo (password.getD "") password.isNone msgs

/-- The per-connection authentication state of the spec.  `Connecting` precedes
the loop and `Closed` follows it, so only the two loop states are needed. -/
inductive ConnState where
  | authenticating
  | active
  deriving DecidableEq, Repr

/-- The state the session is in when the message loop starts, determined by
`let mut authed = password.is_none()`: `authed = false` is `Authenticating`,
`authed = true` is `Active`. -/
def initState (password : Option String) : ConnState :=
  if password.isNone then .active else .authenticating

/-- Once `authed` is true the password argument is never consulted again. -/
theorem messageLoopGo_authed_password_irrelevant (p q : String) :
    ∀ msgs : List MsgResult, messageLoopGo p true msgs = messageLoopGo q true msgs := by
  intro msgs
  induction msgs with
  | nil => rfl
  | cons hd tl ih =>
    cases hd with
    | err e => rfl
    | ok m =>
      simp only [messageLoopGo, if_pos]
      by_cases hc : m.is_close
      · simp [hc]
      · simp [hc, ih]

/-- A first text frame equal to the configured secret turns the loop into
the no-secret (already active) loop on the remaining messages. -/
theorem messageLoop_auth_success (p : String) (rest : List MsgResult) :
    messageLoop (some p) (MsgResult.ok (OwnedMessage.text p) :: rest) =
      messageLoop none rest := by
  simp only [messageLoop, Option.getD, Option.isNone]
  simp only [messageLoopGo, if_neg (Bool.false_ne_true), if_pos rfl,
    OwnedMessage.is_close, Bool.false_eq_true, if_neg]
  exact messageLoopGo_authed_password_irrelevant p "" rest

/-- C1: with a secret configured the session starts in `Authenticating`; a
first text frame equal to the secret makes the session behave as an `Active`
(no-secret) session on the remaining messages; any other first text frame
ends the loop at once with nothing forwarded to the stream handler and no
reply (the loop result carries no outbound action); with no secret the
session starts `Active` and its first received frame is forwarded. -/
theorem auth_gate (p s : String) (rest : List MsgResult) :
    initState (some p) = ConnState.authenticating ∧
    initState none = ConnState.active ∧
    (s = p → messageLoop (some p) (MsgResult.ok (OwnedMessage.text s) :: rest) =
      messageLoop none rest) ∧
    (s ≠ p → messageLoop (some p) (MsgResult.ok (OwnedMessage.text s) :: rest) =
      ⟨[], Termination.authFail⟩) ∧
    (∀ (m : OwnedMessage) (rest2 : List MsgResult),
      (messageLoop none (MsgResult.ok m :: rest2)).forwarded.head? = some m) := by
  refine ⟨rfl, rfl, ?_, ?_, ?_⟩
  · intro hs
    subst hs
    exact messageLoop_auth_success s rest
  · intro hs
    simp only [messageLoop, Option.getD, Option.isNone]
    simp [messageLoopGo, hs]
  · intro m rest2
    simp only [messageLoop, Option.getD, Option.isNone]
    by_cases hc : m.is_close
    · simp [messageLoopGo, hc]
    · simp [messageLoopGo, hc]

/-- Witness for `auth_gate` at concrete inputs: the secret "secret123"
authenticates, "wrong" closes with nothing forwarded. -/
theorem auth_gate_witness :
    messageLoop (some "secret123") [MsgResult.ok (OwnedMessage.text "secret123")] =
      messageLoop none [] ∧
    messageLoop (some "secret123") [MsgResult.ok (OwnedMessage.text "wrong")] =
      ⟨[], Termination.authFail⟩ :=
  ⟨(auth_gate "secret123" "secret123" []).2.2.1 rfl,
   (auth_gate "secret123" "wrong" []).2.2.2.1 (by decide)⟩

/-- C8: while the connection is unauthenticated, a non-text message that is
not a close frame is skipped entirely: the loop behaves exactly as if the
message had not been received, so it neither authenticates, nor is
forwarded, nor closes the connection. -/
theorem unauth_nontext_skipped (p : String) (m : OwnedMessage) (rest : List MsgResult)
    (htext : ∀ s, m ≠ OwnedMessage.text s) (hclose : m.is_close = false) :
    messageLoop (some p) (MsgResult.ok m :: rest) = messageLoop (some p) rest := by
  simp only [messageLoop, Option.getD, Option.isNone]
  cases m with
  | text s => exact absurd rfl (htext s)
  | binary b => simp [messageLoopGo, OwnedMessage.is_close]
  | ping b => simp [messageLoopGo, OwnedMessage.is_close]
  | pong b => simp [messageLoopGo, OwnedMessage.is_close]
  | close => simp [OwnedMessage.is_close] at hclose

/-- Witness for `unauth_nontext_skipped`: a binary frame before
authentication leaves the loop outcome unchanged. -/
theorem unauth_nontext_skipped_witness :
    messageLoop (some "pw") [MsgResult.ok (OwnedMessage.binary [1, 2])] =
      messageLoop (some "pw") [] :=
  unauth_nontext_skipped "pw" (OwnedMessage.binary [1, 2]) []
    (fun _ h => OwnedMessage.noConfusion h) rfl

/-- C9: the text frame that authenticates the connection is consumed by the
gate: the messages forwarded to the stream handler are exactly those the
active loop forwards from the remaining messages, so the authenticating
frame itself never reaches `stream_handler.process`. -/
theorem auth_frame_not_forwarded (p : String) (rest : List MsgResult) :
    (messageLoop (some p) (MsgResult.ok (OwnedMessage.text p) :: rest)).forwarded =
      (messageLoop none rest).forwarded := by
  rw [messageLoop_auth_success p rest]

/-! ## Mouse input device (src/input/mouse_device.rs, linux variant) -/

/-- Modelled from the spec: `protocol::Button` is not under src/; the spec
gives button ∈ \x7bprimary, auxiliary, secondary, none\x7d (constructor names
follow the code, `Button::PRIMARY` etc.). -/
inductive Button where
  | PRIMARY
  | AUXILARY
  | SECONDARY
  | NONE
  deriving DecidableEq, Repr

/-- Modelled from the spec: `protocol::PointerEventType` is not under src/;
the spec gives event kind ∈ \x7bmove, button-down, button-up, other\x7d
(constructor names follow the code, `PointerEventType::DOWN` / `UP`). -/
inductive PointerEventType where
  | DOWN
  | UP
  | MOVE
  | OTHER
  deriving DecidableEq, Repr

/-- Modelled from the spec: `protocol::PointerEvent` is not under src/; the
fields are those `Mouse::send_event` reads: normalized x/y position, event
kind, button, and the primary-pointer flag.  The f64 coordinates of the code are
embedded as rationals (no coordinate arithmetic is at issue here). -/
structure PointerEvent where
  x : ℚ
  y : ℚ
  event_type : PointerEventType
  button : Button
  is_primary : Bool
  deriving DecidableEq, Repr

/-- The autopilot mouse buttons. -/
inductive AutopilotButton where
  | Left
  | Middle
  | Right
  deriving DecidableEq, Repr

/-- Platform calls `Mouse::send_event` can make, in order: window
activation, geometry lookup, a warning log, `mouse::move_to`, and
`mouse::toggle`. -/
inductive MouseAction where
  | activateWindow
  | queryGeometry
  | warnLog (s : String)
  | moveTo (x y : ℚ)
  | toggle (b : AutopilotButton) (down : Bool)
  deriving DecidableEq, Repr

/-- Window geometry as returned by `self.winfo.geometry()`. -/
structure Geometry where
  x : ℚ
  y : ℚ
  width : ℚ
  height : ℚ
  deriving DecidableEq, Repr

/-- Screen size as returned by `autopilot::screen::size()`. -/
structure ScreenSize where
  width : ℚ
  height : ℚ
  deriving DecidableEq, Repr

/-- The `Mouse` device together with the outcomes of the platform calls its
`send_event` makes: `self.winfo.activate()` (`some err` = failure),
`self.winfo.geometry()`, `mouse::move_to` and the screen size. -/
structure Mouse where
  activateResult : Option String
  geometryResult : Except String Geometry
  moveResult : Option String
  screen : ScreenSize
  deriving Repr

/-- The button toggles performed by the `match event.event_type` at the end
of `send_event`: DOWN presses the one button selected by `event.button`
(none for `NONE`), UP releases Left, Middle and Right, anything else does
nothing. -/
def toggleActions (event : PointerEvent) : List MouseAction :=
  match event.event_type with
  | .DOWN =>
    match event.button with
    | .PRIMARY => [.toggle .Left true]
    | .AUXILARY => [.toggle .Middle true]
    | .SECONDARY => [.toggle .Right true]
    | _ => []
  | .UP =>
    [.toggle .Left false, .toggle .Middle false, .toggle .Right false]
  | _ => []

/-- Embedding of `Mouse::send_event` (linux variant): return early on a
non-primary pointer; activate the window (on failure warn and send no
input); fetch the window geometry (on failure warn and send no input); move
the mouse to the event position scaled into the window and screen (a move
failure only warns); then perform the button toggles. -/
def Mouse.send_event (self : Mouse) (event : PointerEvent) : List MouseAction :=
  if event.is_primary = false then []
  else
    MouseAction.activateWindow ::
      match self.activateResult with
      | some err => [.warnLog ("Failed to activate window, sending no input (" ++ err ++ ")")]
      | none =>
        MouseAction.queryGeometry ::
          match self.geometryResult with
          | .error err => [.warnLog ("Failed to get window geometry, sending no input (" ++ err ++ ")")]
          | .ok g =>
            MouseAction.moveTo ((event.x * g.width + g.x) * self.screen.width)
                ((event.y * g.height + g.y) * self.screen.height) ::
              ((match self.moveResult with
                | some err => [.warnLog ("Could not move mouse: " ++ err)]
                | none => []) ++
                toggleActions event)

/-- True on the `mouse::toggle` actions. -/
def MouseAction.isToggle : MouseAction → Bool
  | .toggle _ _ => true
  | _ => false

/-- C5: an event with `is_primary = false` is discarded at the top of
`send_event`: no platform call at all is made for it — no window
activation, no mouse movement, no button toggle. -/
theorem nonprimary_discarded (self : Mouse) (event : PointerEvent)
    (h : event.is_primary = false) :
    Mouse.send_event self event = [] := by
  simp [Mouse.send_event, h]

/-- Witness for `nonprimary_discarded` at a concrete device and event. -/
theorem nonprimary_discarded_witness :
    Mouse.send_event
      ⟨none, Except.ok ⟨0, 0, 1, 1⟩, none, ⟨1920, 1080⟩⟩
      ⟨1/2, 1/2, PointerEventType.DOWN, Button.PRIMARY, false⟩ = [] :=
  nonprimary_discarded _ _ rfl

/-- C10: when window activation and geometry lookup succeed, a primary UP
event releases all three buttons — the toggles performed are exactly
release Left, release Middle, release Right, whatever `button` holds — and
a primary DOWN event toggles at most one button. -/
theorem up_releases_all_buttons (self : Mouse) (event : PointerEvent) (g : Geometry)
    (hp : event.is_primary = true) (hup : event.event_type = PointerEventType.UP)
    (ha : self.activateResult = none) (hg : self.geometryResult = Except.ok g) :
    (∀ b : Button,
      (Mouse.send_event self { event with button := b }).filter MouseAction.isToggle =
        [MouseAction.toggle AutopilotButton.Left false,
         MouseAction.toggle AutopilotButton.Middle false,
         MouseAction.toggle AutopilotButton.Right false]) ∧
    (∀ down : PointerEvent, down.is_primary = true →
      down.event_type = PointerEventType.DOWN →
      ((Mouse.send_event self down).filter MouseAction.isToggle).length ≤ 1) := by
  constructor
  · intro b
    simp only [Mouse.send_event, hp, Bool.true_eq_false, if_false, ha, hg]
    cases hm : self.moveResult <;>
      simp [toggleActions, hup, List.filter, MouseAction.isToggle]
  · intro down hdp hdd
    simp only [Mouse.send_event, hdp, Bool.true_eq_false, if_false, ha, hg]
    cases hm : self.moveResult <;>
      cases hb : down.button <;>
        simp [toggleActions, hdd, hb, List.filter, MouseAction.isToggle]

/-- Witness for `up_releases_all_buttons`: a concrete UP event with
`button = SECONDARY` still releases all three buttons. -/
theorem up_releases_all_buttons_witness :
    (Mouse.send_event
      ⟨none, Except.ok ⟨0, 0, 1, 1⟩, none, ⟨1920, 1080⟩⟩
      ⟨1/2, 1/2, PointerEventType.UP, Button.SECONDARY, true⟩).filter
        MouseAction.isToggle =
      [MouseAction.toggle AutopilotButton.Left false,
       MouseAction.toggle AutopilotButton.Middle false,
       MouseAction.toggle AutopilotButton.Right false] := by
  have h := (up_releases_all_buttons
    ⟨none, Except.ok ⟨0, 0, 1, 1⟩, none, ⟨1920, 1080⟩⟩
    ⟨1/2, 1/2, PointerEventType.UP, Button.SECONDARY, true⟩
    ⟨0, 0, 1, 1⟩ rfl rfl rfl rfl).1 Button.SECONDARY
  exact h

/-! ## Client registry and per-connection setup (websocket.rs lines 230-279) -/

/-- Peer network address, the registry key (`std::net::SocketAddr`). -/
abbrev SocketAddr := String

/-- The registry value: the send half of the connection
(`Arc<Mutex<Writer<TcpStream>>>`), recorded together with the outcome its
`shutdown_all()` would report (`some err` = failure), which the shutdown
broadcast observes. -/
structure ClientHandle where
  shutdownResult : Option String
  deriving DecidableEq, Repr

/-- The shared client registry, `HashMap<SocketAddr, Arc<Mutex<Writer>>>`,
embedded as an association list with at most one binding per key. -/
abbrev Registry := List (SocketAddr × ClientHandle)

/-- Embedding of `HashMap::insert`: the new binding replaces any existing
binding for the same key. -/
def Registry.insertClient (reg : Registry) (k : SocketAddr) (v : ClientHandle) : Registry :=
  (k, v) :: reg.filter (fun p => p.1 ≠ k)

/-- Embedding of `HashMap::get`. -/
def Registry.lookup (reg : Registry) (k : SocketAddr) : Option ClientHandle :=
  (reg.find? (fun p => p.1 = k)).map Prod.snd

/-- The keys currently bound in the registry. -/
def Registry.keys (reg : Registry) : List SocketAddr :=
  reg.map Prod.fst

/-- Outcomes of the fallible steps of the per-connection thread, in program
order: `request.accept()` (handshake), `client.peer_addr()`,
`client.split()`, and `create_stream_handler()` (`some err` = failure). -/
structure SetupEnv where
  handshakeResult : Option String
  peerAddrResult : Except String SocketAddr
  splitResult : Option String
  handlerResult : Option String

/-- Observable actions of the per-connection thread up to the message loop:
control messages sent to the GUI, the registry insertion, and entry into
the message loop. -/
inductive SessionAction where
  | sendWarning (s : String)
  | sendError (s : String)
  | registryInsert (addr : SocketAddr)
  | runMessageLoop
  deriving DecidableEq, Repr

/-- Embedding of the spawned per-connection closure (lines 232-280 up to the
message loop): each failed step sends a Warning (Error for the stream
handler) and returns; the send half is registered under the peer address
after handshake, address retrieval and split succeeded and before the
stream handler is constructed. -/
def sessionSetup (env : SetupEnv) (reg : Registry) (handle : ClientHandle) :
    Registry × List SessionAction :=
  match env.handshakeResult with
  | some err => (reg, [.sendWarning ("Failed to accept client: " ++ err)])
  | none =>
    match env.peerAddrResult with
    | .error err => (reg, [.sendWarning ("Failed to retrieve client address: " ++ err)])
    | .ok peer_addr =>
      match env.splitResult with
      | some err => (reg, [.sendWarning ("Failed to setup connection: " ++ err)])
      | none =>
        let reg2 := reg.insertClient peer_addr handle
        match env.handlerResult with
        | some err =>
          (reg2, [.registryInsert peer_addr,
                  .sendError ("Failed to create stream handler: " ++ err)])
        | none => (reg2, [.registryInsert peer_addr, .runMessageLoop])

/-- C4: `insert` keeps at most one binding per address — on a registry with
distinct keys, the updated registry has distinct keys, exactly one binding
for the inserted address, and that binding holds the new handle (overwrite,
not duplicate) — and the session thread inserts into the registry only
after handshake, peer-address retrieval and transport split all succeeded. -/
theorem registry_unique_per_address (reg : Registry) (k : SocketAddr) (v : ClientHandle)
    (hnd : reg.keys.Nodup) :
    (reg.insertClient k v).keys.Nodup ∧
    ((reg.insertClient k v).keys.count k = 1) ∧
    (reg.insertClient k v).lookup k = some v ∧
    (∀ (env : SetupEnv) (reg0 : Registry) (handle : ClientHandle) (a : SocketAddr),
      SessionAction.registryInsert a ∈ (sessionSetup env reg0 handle).2 →
      env.handshakeResult = none ∧ env.peerAddrResult = Except.ok a ∧
        env.splitResult = none) := by
  refine ⟨?_, ?_, ?_, ?_⟩
  · simp only [Registry.insertClient, Registry.keys, List.map_cons, List.nodup_cons]
    constructor
    · intro hk
      rcases List.mem_map.mp hk with ⟨p, hp, hpk⟩
      have := (List.mem_filter.mp hp).2
      simp only [decide_eq_true_eq] at this
      exact this hpk
    · exact List.Nodup.sublist ((List.filter_sublist reg).map Prod.fst) hnd
  · simp only [Registry.insertClient, Registry.keys, List.map_cons, List.count_cons_self]
    have : List.count k (List.map Prod.fst (reg.filter (fun p => p.1 ≠ k))) = 0 := by
      rw [List.count_eq_zero]
      intro hk
      rcases List.mem_map.mp hk with ⟨p, hp, hpk⟩
      have := (List.mem_filter.mp hp).2
      simp only [decide_eq_true_eq] at this
      exact this hpk
    rw [this]
  · simp [Registry.insertClient, Registry.lookup, List.find?]
  · intro env reg0 handle a hmem
    cases hh : env.handshakeResult with
    | some err => simp [sessionSetup, hh] at hmem
    | none =>
      cases hp : env.peerAddrResult with
      | error err => simp [sessionSetup, hh, hp] at hmem
      | ok addr =>
        cases hs : env.splitResult with
        | some err => simp [sessionSetup, hh, hp, hs] at hmem
        | none =>
          cases hc : env.handlerResult with
          | some err =>
            simp only [sessionSetup, hh, hp, hs, hc, List.mem_cons,
              List.mem_singleton] at hmem
            rcases hmem with h | h | h
            · cases h; exact ⟨rfl, rfl, rfl⟩
            · cases h
            · cases h
          | none =>
            simp only [sessionSetup, hh, hp, hs, hc, List.mem_cons,
              List.mem_singleton] at hmem
            rcases hmem with h | h | h
            · cases h; exact ⟨rfl, rfl, rfl⟩
            · cases h
            · cases h

/-- Witness for `registry_unique_per_address`: inserting over an existing
binding for the same address keeps one binding, holding the new handle. -/
theorem registry_unique_per_address_witness :
    (Registry.insertClient [("1.2.3.4:5", ⟨some "e"⟩)] "1.2.3.4:5" ⟨none⟩).keys.Nodup ∧
    (Registry.insertClient [("1.2.3.4:5", ⟨some "e"⟩)] "1.2.3.4:5" ⟨none⟩).keys.count
      "1.2.3.4:5" = 1 ∧
    (Registry.insertClient [("1.2.3.4:5", ⟨some "e"⟩)] "1.2.3.4:5" ⟨none⟩).lookup
      "1.2.3.4:5" = some ⟨none⟩ := by
  have h := registry_unique_per_address [("1.2.3.4:5", ⟨some "e"⟩)] "1.2.3.4:5" ⟨none⟩
    (by decide)
  exact ⟨h.1, h.2.1, h.2.2.1⟩

/-- C6: a failure of the handshake, of peer-address retrieval or of the
transport split aborts the connection before registration, leaving the
registry unchanged; a stream-handler construction failure aborts after
registration — the message loop is never entered but the new registry entry
remains. -/
theorem setup_failure_isolation (env : SetupEnv) (reg : Registry) (handle : ClientHandle) :
    (env.handshakeResult.isSome ∨ (∃ e, env.peerAddrResult = Except.error e) ∨
        env.splitResult.isSome →
      (sessionSetup env reg handle).1 = reg ∧
        SessionAction.runMessageLoop ∉ (sessionSetup env reg handle).2) ∧
    (∀ a : SocketAddr, env.handshakeResult = none → env.peerAddrResult = Except.ok a →
      env.splitResult = none → env.handlerResult.isSome →
      (sessionSetup env reg handle).1 = reg.insertClient a handle ∧
        (sessionSetup env reg handle).1.lookup a = some handle ∧
        SessionAction.runMessageLoop ∉ (sessionSetup env reg handle).2) := by
  constructor
  · intro hfail
    cases hh : env.handshakeResult with
    | some err => simp [sessionSetup, hh]
    | none =>
      cases hp : env.peerAddrResult with
      | error err => simp [sessionSetup, hh, hp]
      | ok addr =>
        cases hs : env.splitResult with
        | some err => simp [sessionSetup, hh, hp, hs]
        | none =>
          exfalso
          rcases hfail with h | ⟨e, h⟩ | h
          · rw [hh] at h; simp at h
          · rw [hp] at h; exact Except.noConfusion h
          · rw [hs] at h; simp at h
  · intro a hh hp hs hc
    rcases Option.isSome_iff_exists.mp hc with ⟨err, herr⟩
    refine ⟨?_, ?_, ?_⟩
    · simp [sessionSetup, hh, hp, hs, herr]
    · simp [sessionSetup, hh, hp, hs, herr, Registry.insertClient, Registry.lookup,
        List.find?]
    · simp [sessionSetup, hh, hp, hs, herr]

/-- Witness for `setup_failure_isolation`: a split failure leaves the
registry unchanged, and a handler-construction failure leaves the inserted
entry behind without entering the message loop. -/
theorem setup_failure_isolation_witness :
    (sessionSetup ⟨none, Except.ok "9.9.9.9:1", some "broken pipe", none⟩ [] ⟨none⟩).1 =
      [] ∧
    (sessionSetup ⟨none, Except.ok "9.9.9.9:1", none, some "no uinput"⟩ [] ⟨none⟩).1.lookup
      "9.9.9.9:1" = some ⟨none⟩ := by
  constructor
  · exact ((setup_failure_isolation ⟨none, Except.ok "9.9.9.9:1", some "broken pipe", none⟩
      [] ⟨none⟩).1 (Or.inr (Or.inr rfl))).1
  · exact ((setup_failure_isolation ⟨none, Except.ok "9.9.9.9:1", none, some "no uinput"⟩
      [] ⟨none⟩).2 "9.9.9.9:1" rfl rfl rfl rfl).2.1

/-! ## Control thread (websocket.rs lines 59-76) -/

/-- Inbound GUI command channel message. -/
inductive Gui2WsMessage where
  | Shutdown
  deriving DecidableEq, Repr

/-- Observable actions of the control thread: a `shutdown_all()` call on a
registered send-handle, an Error control message, and the store on the
shutdown flag. -/
inductive ControlAction where
  | shutdownCall (addr : SocketAddr)
  | sendError (s : String)
  | setFlag (b : Bool)
  deriving DecidableEq, Repr

/-- Embedding of the `for client in clients.values()` loop: call
`shutdown_all()` on each registered handle; a failure sends an Error
control message and the loop moves on to the next entry. -/
def shutdownBroadcastGo : List (SocketAddr × ClientHandle) → List ControlAction
  | [] => []
  | (addr, c) :: rest =>
    ControlAction.shutdownCall addr ::
      match c.shutdownResult with
      | some err =>
        ControlAction.sendError ("Could not shutdown websocket: " ++ err) ::
          shutdownBroadcastGo rest
      | none => shutdownBroadcastGo rest

/-- Embedding of the control thread body (lines 60-74): `Err(_)` (channel
closed) and `Ok(Shutdown)` hit the same match arm, which broadcasts
shutdown over the registry, then stores `true` into the shutdown flag and
returns. -/
def controlThreadStep (recv : Option Gui2WsMessage) (reg : Registry) : List ControlAction :=
  match recv with
  | none | some .Shutdown => shutdownBroadcastGo reg ++ [.setFlag true]

/-- True on `shutdown_all()` call actions. -/
def ControlAction.isShutdownCall : ControlAction → Bool
  | .shutdownCall _ => true
  | _ => false

/-- True on Error control-message actions. -/
def ControlAction.isSendError : ControlAction → Bool
  | .sendError _ => true
  | _ => false

/-- The broadcast loop calls `shutdown_all()` once per registry entry and
sends one Error per failing entry. -/
theorem shutdownBroadcastGo_counts (reg : List (SocketAddr × ClientHandle)) :
    (shutdownBroadcastGo reg).countP ControlAction.isShutdownCall = reg.length ∧
    (shutdownBroadcastGo reg).countP ControlAction.isSendError =
      reg.countP (fun p => p.2.shutdownResult.isSome) := by
  induction reg with
  | nil => simp [shutdownBroadcastGo]
  | cons hd tl ih =>
    obtain ⟨addr, c⟩ := hd
    cases hc : c.shutdownResult with
    | none =>
      simp [shutdownBroadcastGo, hc, List.countP_cons, ControlAction.isShutdownCall,
        ControlAction.isSendError, ih.1, ih.2]
    | some err =>
      simp [shutdownBroadcastGo, hc, List.countP_cons, ControlAction.isShutdownCall,
        ControlAction.isSendError, ih.1, ih.2]

/-- The broadcast loop never touches the shutdown flag. -/
theorem shutdownBroadcastGo_no_setFlag (reg : List (SocketAddr × ClientHandle))
    (b : Bool) : ControlAction.setFlag b ∉ shutdownBroadcastGo reg := by
  induction reg with
  | nil => simp [shutdownBroadcastGo]
  | cons hd tl ih =>
    obtain ⟨addr, c⟩ := hd
    cases hc : c.shutdownResult with
    | none =>
      simp only [shutdownBroadcastGo, hc, List.mem_cons]
      rintro (h | h)
      · exact ControlAction.noConfusion h
      · exact ih h
    | some err =>
      simp only [shutdownBroadcastGo, hc, List.mem_cons]
      rintro (h | h | h)
      · exact ControlAction.noConfusion h
      · exact ControlAction.noConfusion h
      · exact ih h

/-- C2: receiving `Shutdown` and the channel closing produce identical
behaviour: the thread calls `shutdown_all()` on every registered entry
(one call per entry — a failure does not abort the iteration), sends one
Error control message per failing entry, and its final action is the store
of `true` into the shutdown flag, after which it returns. -/
theorem control_thread_shutdown (recv : Option Gui2WsMessage) (reg : Registry) :
    controlThreadStep recv reg = controlThreadStep (some Gui2WsMessage.Shutdown) reg ∧
    (controlThreadStep recv reg).countP ControlAction.isShutdownCall = reg.length ∧
    (controlThreadStep recv reg).countP ControlAction.isSendError =
      reg.countP (fun p => p.2.shutdownResult.isSome) ∧
    (controlThreadStep recv reg).getLast? = some (ControlAction.setFlag true) := by
  have hstep : controlThreadStep recv reg = shutdownBroadcastGo reg ++ [.setFlag true] := by
    cases recv with
    | none => rfl
    | some m => cases m; rfl
  refine ⟨?_, ?_, ?_, ?_⟩
  · rw [hstep]; rfl
  · rw [hstep, List.countP_append, (shutdownBroadcastGo_counts reg).1]
    simp [ControlAction.isShutdownCall]
  · rw [hstep, List.countP_append, (shutdownBroadcastGo_counts reg).2]
    simp [ControlAction.isSendError]
  · rw [hstep, List.getLast?_append]
    rfl

/-- C2 has no hypotheses, but the behaviour at a concrete registry with one
failing and one succeeding entry is recorded as a sanity check. -/
theorem control_thread_shutdown_example :
    controlThreadStep none [("1.1.1.1:1", ⟨some "peer gone"⟩), ("2.2.2.2:2", ⟨none⟩)] =
      [ControlAction.shutdownCall "1.1.1.1:1",
       ControlAction.sendError "Could not shutdown websocket: peer gone",
       ControlAction.shutdownCall "2.2.2.2:2",
       ControlAction.setFlag true] := rfl

/-! ## Listener accept loop (websocket.rs lines 217-312) -/

/-- Observable actions of one iteration of the accept loop: the 10ms sleep,
a load of the shutdown flag (with the value observed), an Info control
message, spawning a session thread, a log line, and — included so its
absence is statable — a store to the shutdown flag. -/
inductive ListenerAction where
  | sleep
  | flagLoad (observed : Bool)
  | sendInfo (s : String)
  | spawnSession
  | logWarn (s : String)
  | flagStore (b : Bool)
  deriving DecidableEq, Repr

/-- Embedding of one iteration of the accept loop.  `flag1` is the value
the load at the top of the iteration observes; `acceptOk` tells whether
`server.accept()` returned `Ok`; `flag2` is the value the load in the
`Err(_)` arm observes.  Returns the actions of the iteration and whether
the loop returned. -/
def listenerIter (addr : SocketAddr) (flag1 : Bool) (acceptOk : Bool) (flag2 : Bool) :
    List ListenerAction × Bool :=
  if flag1 then
    ([.sleep, .flagLoad true, .sendInfo ("Shutting down websocket: " ++ addr)], true)
  else if acceptOk then
    ([.sleep, .flagLoad false, .spawnSession], false)
  else if flag2 then
    ([.sleep, .flagLoad false, .flagLoad true], true)
  else
    ([.sleep, .flagLoad false, .flagLoad false], false)

/-- True on the actions that log or report anything (an Info control
message or a log line). -/
def ListenerAction.isReport : ListenerAction → Bool
  | .sendInfo _ => true
  | .logWarn _ => true
  | _ => false

/-- The flag value after a sequence of stores, starting from the initial
`AtomicBool::new(false)`: the last stored value, or false if none. -/
def flagAfter (writes : List Bool) : Bool :=
  writes.foldl (fun _ b => b) false

/-- The flag value observed after the first `n` stores. -/
def flagAt (writes : List Bool) (n : Nat) : Bool :=
  flagAfter (writes.take n)

/-- Folding the replace-function over a list of trues keeps a true
accumulator true. -/
theorem foldl_replace_all_true (l : List Bool) (h : ∀ b ∈ l, b = true) :
    l.foldl (fun _ b => b) true = true := by
  induction l with
  | nil => rfl
  | cons hd tl ih =>
    have hhd : hd = true := h hd (List.mem_cons_self hd tl)
    rw [List.foldl_cons, hhd]
    exact ih fun b hb => h b (List.mem_cons_of_mem hd hb)

/-- If every store writes `true`, then once the flag is observed true it
stays true at every later point. -/
theorem flagAt_monotone (ws : List Bool) (h : ∀ b ∈ ws, b = true)
    (i j : Nat) (hij : i ≤ j) (hi : flagAt ws i = true) : flagAt ws j = true := by
  have hsplit : ws.take j = ws.take i ++ (ws.take j).drop i := by
    have h1 : (ws.take j).take i = ws.take i := by
      rw [List.take_take, Nat.min_eq_left hij]
    calc ws.take j = (ws.take j).take i ++ (ws.take j).drop i :=
          (List.take_append_drop i (ws.take j)).symm
      _ = ws.take i ++ (ws.take j).drop i := by rw [h1]
  unfold flagAt flagAfter at *
  rw [hsplit, List.foldl_append, hi]
  exact foldl_replace_all_true _ fun b hb =>
    h b (List.take_subset j ws (List.drop_subset i (ws.take j) hb))

/-- C3: the shutdown flag is monotonic and single-writer: every store the
control thread performs writes `true`; a listener iteration performs no
store at all; under all-true stores the flag never goes back to false once
observed true; and an iteration that observes the flag true sends the Info
message and returns (the loop ends within that poll interval). -/
theorem shutdown_flag_monotonic :
    (∀ (recv : Option Gui2WsMessage) (reg : Registry) (b : Bool),
      ControlAction.setFlag b ∈ controlThreadStep recv reg → b = true) ∧
    (∀ (addr : SocketAddr) (f1 acc f2 b : Bool),
      ListenerAction.flagStore b ∉ (listenerIter addr f1 acc f2).1) ∧
    (∀ ws : List Bool, (∀ b ∈ ws, b = true) →
      ∀ i j, i ≤ j → flagAt ws i = true → flagAt ws j = true) ∧
    (∀ (addr : SocketAddr) (acc f2 : Bool),
      (listenerIter addr true acc f2).2 = true ∧
      ListenerAction.sendInfo ("Shutting down websocket: " ++ addr) ∈
        (listenerIter addr true acc f2).1) := by
  refine ⟨?_, ?_, flagAt_monotone, ?_⟩
  · intro recv reg b hmem
    have hstep : controlThreadStep recv reg = shutdownBroadcastGo reg ++ [.setFlag true] := by
      cases recv with
      | none => rfl
      | some m => cases m; rfl
    rw [hstep, List.mem_append] at hmem
    rcases hmem with h | h
    · exact absurd h (shutdownBroadcastGo_no_setFlag reg b)
    · rcases List.mem_singleton.mp h with h
      exact (ControlAction.setFlag.injEq b true).mp (congrArg id (by rw [h]))
  · intro addr f1 acc f2 b
    cases f1 <;> cases acc <;> cases f2 <;> simp [listenerIter]
  · intro addr acc f2
    constructor
    · simp [listenerIter]
    · simp [listenerIter]

/-- Witness for `shutdown_flag_monotonic` at concrete inputs: with the
single store `true` the flag reads true at every later point, and a store
found in a concrete control-thread run is a store of `true`. -/
theorem shutdown_flag_monotonic_witness :
    flagAt [true] 2 = true ∧
    (listenerIter "127.0.0.1:1701" true false false).2 = true :=
  ⟨shutdown_flag_monotonic.2.2.1 [true] (by decide) 1 2 (by decide) (by decide),
   (shutdown_flag_monotonic.2.2.2 "127.0.0.1:1701" false false).1⟩

/-- C7 counterexample: at a concrete iteration with the flag unset and
`server.accept()` returning `Err`, the loop continues but performs no
logging or reporting action whatsoever — the part of the claim saying that
a transient accept error is logged is false of the code. -/
theorem accept_error_not_logged :
    (listenerIter "127.0.0.1:1701" false false false).1 =
      [ListenerAction.sleep, ListenerAction.flagLoad false,
       ListenerAction.flagLoad false] ∧
    (listenerIter "127.0.0.1:1701" false false false).1.countP
      ListenerAction.isReport = 0 ∧
    (listenerIter "127.0.0.1:1701" false false false).2 = false := by
  refine ⟨rfl, rfl, rfl⟩

/-- C7 amended: a transient accept error is silently ignored — nothing is
logged or reported — and the loop continues; an accept error ends the loop
only when one of the two flag loads of the iteration observed true. -/
theorem accept_error_silent (addr : SocketAddr) (f2 : Bool) :
    (listenerIter addr false false f2).1.countP ListenerAction.isReport = 0 ∧
    (listenerIter addr false false f2).2 = f2 ∧
    (∀ f1 acc fb : Bool, (listenerIter addr f1 acc fb).2 = true →
      f1 = true ∨ fb = true) := by
  refine ⟨?_, ?_, ?_⟩
  · cases f2 <;> rfl
  · cases f2 <;> rfl
  · intro f1 acc fb h
    cases f1 with
    | true => exact Or.inl rfl
    | false =>
      cases fb with
      | true => exact Or.inr rfl
      | false => cases acc <;> simp [listenerIter] at h

/-- Witness for `accept_error_silent`: with the flag set between the two
loads, the accept-error arm ends the loop, and the disjunction picks the
second load. -/
theorem accept_error_silent_witness :
    (listenerIter "127.0.0.1:1701" false false true).2 = true ∧
    (false = true ∨ true = true) :=
  ⟨(accept_error_silent "127.0.0.1:1701" true).2.1,
   (accept_error_silent "127.0.0.1:1701" true).2.2 false false true rfl⟩

end Weylus
